import Mathlib

/-!
A shallow embedding of the Go AntiCaptcha client (`anticaptcha.go`).

JSON values decoded from `encoding/json` into `interface{}` are modelled by
`JVal` (Go decodes every JSON number to `float64`; every number relevant here
is integral, so numbers are modelled as `Int`).  Go's comma-ok map lookups and
type assertions are modelled by `Option`-valued accessors; an unchecked type
assertion that fails is a runtime panic, modelled by the `panicked`
constructor of the result types.

Time is modelled in seconds.  Each HTTP exchange is driven by an environment
(`Call`): a duration and either a decoded response object or a transport
failure.  A `context.WithTimeout` deadline `D` aborts an exchange that starts
at or after `D` immediately, and aborts an exchange in flight at time `D`
(Go's `http.Client.Do` honours the request context).  `time.Sleep` does not
take the context, so the inter-poll sleep always advances time by the full
`checkInterval`, exactly as in the source.

Error values built with `errors.New` / `fmt.Errorf("...: %w", err)` are
modelled by `GoErr`, preserving the wrapping structure and the rendered
message.
-/

namespace Anticaptcha

/-- JSON values as decoded by `encoding/json` into `interface{}`. -/
inductive JVal where
  | jnum  : Int → JVal
  | jstr  : String → JVal
  | jbool : Bool → JVal
  | jnull : JVal
  | jobj  : List (String × JVal) → JVal

/-- A decoded JSON object (`map[string]interface{}`). -/
abbrev JObj := List (String × JVal)

/-- Map lookup `m[k]` (first binding wins; Go maps have unique keys). -/
def jlookup : JObj → String → Option JVal
  | [], _ => none
  | (k, v) :: rest, key => if k = key then some v else jlookup rest key

/-- Comma-ok string assertion `v.(string)`: `some s` iff the value is present
and a string. -/
def asStr : Option JVal → Option String
  | some (.jstr s) => some s
  | _ => none

/-- Comma-ok number assertion `v.(float64)`. -/
def asNum : Option JVal → Option Int
  | some (.jnum n) => some n
  | _ => none

/-- Comma-ok object assertion `v.(map[string]interface{})`. -/
def asObj : Option JVal → Option JObj
  | some (.jobj o) => some o
  | _ => none

/-- Go error values, preserving `fmt.Errorf("...: %w", err)` wrapping.
`ctxDeadline` is `context.DeadlineExceeded`; `netFail` stands for any
non-deadline transport failure reported by the environment. -/
inductive GoErr where
  | ctxDeadline : GoErr
  | netFail : GoErr
  | msg : String → GoErr
  | wrap : String → GoErr → GoErr
deriving DecidableEq

/-- The rendered `Error()` message of a Go error. -/
def GoErr.message : GoErr → String
  | .ctxDeadline => "context deadline exceeded"
  | .netFail => "network error"
  | .msg s => s
  | .wrap p e => p ++ ": " ++ e.message

/-- `errors.Is(err, context.DeadlineExceeded)`: the error chain bottoms out in
the context deadline. -/
def GoErr.isCancellation : GoErr → Bool
  | .ctxDeadline => true
  | .wrap _ e => e.isCancellation
  | _ => false

/-- Outcome of a fallible Go computation that may also panic. -/
inductive GoRes (α : Type) where
  | ok : α → GoRes α
  | fail : GoErr → GoRes α
  | panicked : String → GoRes α
deriving DecidableEq

/-- The fixed poll interval `checkInterval = 2 * time.Second`, in seconds. -/
def checkInterval : Nat := 2

/-- The fixed operation timeout `defaultTimeout = 60 * time.Second`, in
seconds. -/
def defaultTimeout : Nat := 60

/-- One HTTP exchange as offered by the environment: how long the round trip
takes and either the decoded response object or `none` for a transport
failure (network error, non-2xx status, or undecodable body). -/
structure Call where
  dur : Nat
  resp : Option JObj

/-- One `makeRequest` call under a context with absolute deadline `D`,
started at time `t`: an exchange that starts at or after the deadline fails
immediately; one in flight at the deadline is aborted at `D`; otherwise it
completes after `c.dur`.  The error texts mirror
`fmt.Errorf("request failed: %w", err)`.  Returns the completion time and
the result. -/
def httpExchange (D t : Nat) (c : Call) : Nat × Except GoErr JObj :=
  if D ≤ t then (t, .error (.wrap "request failed" .ctxDeadline))
  else if D ≤ t + c.dur then (D, .error (.wrap "request failed" .ctxDeadline))
  else
    match c.resp with
    | none => (t + c.dur, .error (.wrap "request failed" .netFail))
    | some r => (t + c.dur, .ok r)

/-- `response["taskId"].(float64)` with comma-ok, as in both create paths. -/
def extractTaskId (r : JObj) : GoRes Int :=
  match asNum (jlookup r "taskId") with
  | some n => .ok n
  | none => .fail (.msg "failed to retrieve taskId from response")

/-- Decoding of a create-task response, shared verbatim between
`createTaskImage` and `SolveAndReturnSolution`:

* `errMsg, ok := response["errorId"]; ok && errMsg.(float64) != 0` — the
  assertion panics when `errorId` is present but not a number;
* on a non-zero `errorId`, `response["errorDescription"].(string)` is an
  unchecked assertion: it panics when absent or not a string, otherwise the
  description becomes the error message verbatim (`errors.New`);
* otherwise the numeric `taskId` is extracted with comma-ok. -/
def decodeCreate (r : JObj) : GoRes Int :=
  match jlookup r "errorId" with
  | some v =>
    match v with
    | .jnum n =>
      if n ≠ 0 then
        match asStr (jlookup r "errorDescription") with
        | some d => .fail (.msg d)
        | none => .panicked "interface conversion"
      else extractTaskId r
    | _ => .panicked "interface conversion"
  | none => extractTaskId r

/-- `createTaskImage`: one `makeRequest` against `/createTask` (transport
errors wrapped as `failed to create task: %w`) followed by `decodeCreate`. -/
def createTaskImage (D t : Nat) (c : Call) : Nat × GoRes Int :=
  match httpExchange D t c with
  | (t', .error e) => (t', .fail (.wrap "failed to create task" e))
  | (t', .ok r) => (t', decodeCreate r)

/-- `getTaskResult`: one `makeRequest` against `/getTaskResult`, transport
errors wrapped as `failed to get task result: %w`. -/
def getTaskResult (D t : Nat) (c : Call) : Nat × Except GoErr JObj :=
  match httpExchange D t c with
  | (t', .error e) => (t', .error (.wrap "failed to get task result" e))
  | (t', .ok r) => (t', .ok r)

/-- Observable accounting of one solve run: current model time, number of
`getTaskResult` attempts made, number of completed sleeps. -/
structure RunStats where
  time : Nat
  polls : Nat
  sleeps : Nat
deriving DecidableEq

/-- Result of a solve run: a solution string, a returned error, a runtime
panic, or exhaustion of the model's fuel (a model artifact, not a programme
behaviour). -/
inductive RunRes where
  | ok : String → RunRes
  | fail : GoErr → RunRes
  | panicked : String → RunRes
  | fuelOut : RunRes
deriving DecidableEq

/-- The shared polling loop of `SendImage` and `SolveAndReturnSolution`,
parametrised by the state `a` threaded through the ready-decoder `dec`
(`Unit` for the image flow, the `HCaptchaProxyless` struct for HCaptcha):

    for {
      response, err := getTaskResult(ctx, taskID)   // caller wraps err again
      if err != nil { return "", fmt.Errorf("failed to get task result: %w", err) }
      if status, ok := response["status"].(string); ok && status == "ready" {
        ... decode solution ...
      }
      time.Sleep(checkInterval)                     // NOT context-aware
    }

`env i` supplies the `i`-th `getTaskResult` exchange. -/
def pollLoop {α : Type} (D : Nat) (env : Nat → Call) (dec : α → JObj → α × RunRes) :
    Nat → RunStats → α → RunStats × α × RunRes
  | 0, st, a => (st, a, .fuelOut)
  | fuel + 1, st, a =>
    let st1 : RunStats := { st with polls := st.polls + 1 }
    match getTaskResult D st.time (env st.polls) with
    | (t', .error e) =>
      ({ st1 with time := t' }, a, .fail (.wrap "failed to get task result" e))
    | (t', .ok r) =>
      let st2 : RunStats := { st1 with time := t' }
      if asStr (jlookup r "status") = some "ready" then
        let (a', res) := dec a r
        (st2, a', res)
      else
        pollLoop D env dec fuel
          { st2 with time := st2.time + checkInterval, sleeps := st2.sleeps + 1 } a

/-- The ready-branch of `SendImage`: comma-ok extraction of the solution
object and of its `text` field; failures are returned errors, never panics. -/
def decodeImageReady (r : JObj) : RunRes :=
  match asObj (jlookup r "solution") with
  | none => .fail (.msg "invalid solution format in response")
  | some sol =>
    match asStr (jlookup sol "text") with
    | none => .fail (.msg "text not found in solution")
    | some text => .ok text

/-- The image flow's stateless ready-decoder, as plugged into `pollLoop`. -/
def imageDecoder : Unit → JObj → Unit × RunRes :=
  fun _ r => ((), decodeImageReady r)

/-- `SendImage`: a 60-second context, `createTaskImage` (its error wrapped as
`failed to send image: %w`), then the polling loop.  `cc` is the create
exchange, `env` the poll exchanges, `fuel` bounds the number of modelled loop
iterations. -/
def SendImage (cc : Call) (env : Nat → Call) (fuel : Nat) : RunStats × RunRes :=
  match createTaskImage defaultTimeout 0 cc with
  | (t, .fail e) =>
    ({ time := t, polls := 0, sleeps := 0 }, .fail (.wrap "failed to send image" e))
  | (t, .panicked s) => ({ time := t, polls := 0, sleeps := 0 }, .panicked s)
  | (t, .ok _) =>
    let (st, _, res) :=
      pollLoop defaultTimeout env imageDecoder fuel { time := t, polls := 0, sleeps := 0 } ()
    (st, res)

/-- The `HCaptchaProxyless` task configuration (the `Client` pointer is
omitted: the claims concern the data fields). -/
structure HCaptchaProxyless where
  websiteURL : String
  websiteKey : String
  isInvisible : Bool
  isEnterprise : Bool
  enterprisePayload : JObj
  softID : Int
  userAgent : String
  respKey : String

/-- The ready-branch of `SolveAndReturnSolution`: comma-ok extraction of the
solution object and of `gRecaptchaResponse`, then the UNCHECKED assertions
`h.UserAgent = solution["userAgent"].(string)` and
`h.RespKey = solution["respKey"].(string)` — each panics when the field is
absent or not a string, and the `userAgent` assignment has already mutated
the struct when the `respKey` assertion panics. -/
def decodeHReady (h : HCaptchaProxyless) (r : JObj) : HCaptchaProxyless × RunRes :=
  match asObj (jlookup r "solution") with
  | none => (h, .fail (.msg "invalid solution format in response"))
  | some sol =>
    match asStr (jlookup sol "gRecaptchaResponse") with
    | none => (h, .fail (.msg "gRecaptchaResponse not found in solution"))
    | some g =>
      match asStr (jlookup sol "userAgent") with
      | none => (h, .panicked "interface conversion")
      | some ua =>
        let h1 : HCaptchaProxyless := { h with userAgent := ua }
        match asStr (jlookup sol "respKey") with
        | none => (h1, .panicked "interface conversion")
        | some rk => ({ h1 with respKey := rk }, .ok g)

/-- `SolveAndReturnSolution`: a 60-second context, an inline create call
(transport errors wrapped as `failed to create task: %w`, then the same
`decodeCreate` logic, whose errors are returned unwrapped), then the polling
loop threading the mutable `HCaptchaProxyless` struct. -/
def SolveAndReturnSolution (h : HCaptchaProxyless) (cc : Call) (env : Nat → Call)
    (fuel : Nat) : HCaptchaProxyless × RunStats × RunRes :=
  match httpExchange defaultTimeout 0 cc with
  | (t, .error e) =>
    (h, { time := t, polls := 0, sleeps := 0 }, .fail (.wrap "failed to create task" e))
  | (t, .ok r) =>
    match decodeCreate r with
    | .fail e => (h, { time := t, polls := 0, sleeps := 0 }, .fail e)
    | .panicked s => (h, { time := t, polls := 0, sleeps := 0 }, .panicked s)
    | .ok _ =>
      let (st, h', res) :=
        pollLoop defaultTimeout env decodeHReady fuel { time := t, polls := 0, sleeps := 0 } h
      (h', st, res)

/-! ### Detailed model of `makeRequest` (checkpoints and round-trip count)

`makeRequest` is a straight line of fallible steps in source order:
`url.Parse`, `json.Marshal`, `http.NewRequestWithContext`, `HTTPClient.Do`,
the 2xx status check, and `json.Decoder.Decode`.  The environment says which
library steps succeed. -/

/-- Environment for one `makeRequest` call: which fallible step succeeds,
the HTTP status code, and whether the response body decodes. -/
structure MkReqEnv where
  urlOk : Bool
  marshalOk : Bool
  reqOk : Bool
  doOk : Bool
  status : Int
  decodeOk : Bool

/-- Which checkpoint of `makeRequest` failed, if any. -/
inductive MkReqOut where
  | success : MkReqOut
  | urlErr : MkReqOut
  | marshalErr : MkReqOut
  | reqErr : MkReqOut
  | doErr : MkReqOut
  | statusErr : Int → MkReqOut
  | decodeErr : MkReqOut
deriving DecidableEq

/-- `makeRequest`, instrumented with the number of `HTTPClient.Do`
invocations (round trips).  Each failing step returns at once; there is no
loop and no retry in the source. -/
def makeRequest (e : MkReqEnv) : Nat × MkReqOut :=
  if e.urlOk = false then (0, .urlErr)
  else if e.marshalOk = false then (0, .marshalErr)
  else if e.reqOk = false then (0, .reqErr)
  else if e.doOk = false then (1, .doErr)
  else if e.status < 200 ∨ 300 ≤ e.status then (1, .statusErr e.status)
  else if e.decodeOk = false then (1, .decodeErr)
  else (1, .success)

/-- The log line `c.Logger.Printf("Sending request to %s with body: %v\n",
u.String(), len(string(b)))`: it records the URL and the byte length of the
serialized body, never the body's content. -/
def sendLogLine (u : String) (b : String) : String :=
  "Sending request to " ++ u ++ " with body: " ++ toString b.length ++ "\n"

/-! ### Concrete environments and auxiliary predicates used by the theorems -/

/-- Mock service for the two-poll image scenario: first poll `processing`,
every later poll `ready` with solution text `AB12`; every exchange is
instantaneous. -/
def envC1 : Nat → Call := fun i =>
  if i = 0 then ⟨0, some [("status", .jstr "processing")]⟩
  else ⟨0, some [("status", .jstr "ready"),
                 ("solution", .jobj [("text", .jstr "AB12")])]⟩

/-- Mock service that always answers `{status:"processing"}` instantly. -/
def envProcessing : Nat → Call := fun _ => ⟨0, some [("status", .jstr "processing")]⟩

/-- Mock service whose first poll is `ready` with an HCaptcha solution that
carries `gRecaptchaResponse` but no `userAgent`. -/
def envNoUserAgent : Nat → Call := fun _ =>
  ⟨0, some [("status", .jstr "ready"),
            ("solution", .jobj [("gRecaptchaResponse", .jstr "tok")])]⟩

/-- Create exchange answering instantly with `{taskId: 1}`. -/
def ccTask1 : Call := ⟨0, some [("taskId", .jnum 1)]⟩

/-- Mock service whose first poll is `ready` with the full HCaptcha solution
`{gRecaptchaResponse:"tok", userAgent:"UA", respKey:"K"}`. -/
def envHCaptcha : Nat → Call := fun _ =>
  ⟨0, some [("status", .jstr "ready"),
            ("solution", .jobj [("gRecaptchaResponse", .jstr "tok"),
                                ("userAgent", .jstr "UA"),
                                ("respKey", .jstr "K")])]⟩

/-- A concrete caller-initialised HCaptcha configuration. -/
def hc0 : HCaptchaProxyless :=
  { websiteURL := "https://website.com", websiteKey := "SITE_KEY",
    isInvisible := true, isEnterprise := false, enterprisePayload := [],
    softID := 3, userAgent := "", respKey := "" }

/-- The exact error value produced when a poll's `getTaskResult` call hits
the context deadline, after both layers of `failed to get task result`
wrapping in the source. -/
def pollDeadlineErr : GoErr :=
  .wrap "failed to get task result" (.wrap "failed to get task result"
    (.wrap "request failed" .ctxDeadline))

/-- Shape deviations of a create response that the source meets with an
UNCHECKED type assertion (a runtime panic): `errorId` present but not a
number, or `errorId` a non-zero number with `errorDescription` absent or not
a string. -/
def badCreateShape (r : JObj) : Prop :=
  (∃ v, jlookup r "errorId" = some v ∧ asNum (some v) = none) ∨
  (∃ n : Int, jlookup r "errorId" = some (.jnum n) ∧ n ≠ 0 ∧
    asStr (jlookup r "errorDescription") = none)

/-- Shape deviations of a ready HCaptcha poll response that the source meets
with an UNCHECKED type assertion: the solution object and its string
`gRecaptchaResponse` are present, but `userAgent` or `respKey` is absent or
not a string. -/
def badHSolutionShape (r : JObj) : Prop :=
  ∃ sol, asObj (jlookup r "solution") = some sol ∧
    (∃ g, asStr (jlookup sol "gRecaptchaResponse") = some g) ∧
    (asStr (jlookup sol "userAgent") = none ∨ asStr (jlookup sol "respKey") = none)

/-- The environment always answers the poll (no transport failure) and never
with status `ready`. -/
def neverReady (env : Nat → Call) : Prop :=
  ∀ i, ∃ r, (env i).resp = some r ∧ asStr (jlookup r "status") ≠ some "ready"

/-! ## Theorems -/

/-- C1: when the first poll answers `{status:"processing"}` and the second
`{status:"ready", solution:{text:"AB12"}}`, `SendImage` makes exactly two
polls, sleeps exactly once — advancing time by the fixed 2-second
`checkInterval` — and returns `"AB12"` with no error. -/
theorem SendImage_two_poll_scenario :
    SendImage ⟨0, some [("taskId", .jnum 7)]⟩ envC1 31 =
      ({ time := checkInterval, polls := 2, sleeps := 1 }, .ok "AB12") := rfl

/-- C9: `makeRequest` performs at most one HTTP round trip (no retry), the
round trip happens exactly when the steps before `HTTPClient.Do` succeed,
and the call succeeds exactly when URL parsing, body marshalling, request
construction, the network call, the 2xx status check and response decoding
all succeed — i.e. it returns a transport error exactly when one of those
fails. -/
theorem makeRequest_one_roundtrip_error_iff (e : MkReqEnv) :
    (makeRequest e).1 ≤ 1 ∧
    ((makeRequest e).1 = 1 ↔ (e.urlOk = true ∧ e.marshalOk = true ∧ e.reqOk = true)) ∧
    ((makeRequest e).2 = .success ↔
      (e.urlOk = true ∧ e.marshalOk = true ∧ e.reqOk = true ∧ e.doOk = true ∧
        (200 ≤ e.status ∧ e.status < 300) ∧ e.decodeOk = true)) := by
  rcases e with ⟨u, m, rq, d, s, dec⟩
  by_cases hs : s < 200 ∨ 300 ≤ s <;>
    cases u <;> cases m <;> cases rq <;> cases d <;> cases dec <;>
      simp [makeRequest, hs] <;> omega

/-- Witness for C9 at a concrete environment. -/
theorem makeRequest_one_roundtrip_error_iff_witness :
    (makeRequest ⟨true, true, true, true, 200, true⟩).2 = .success :=
  (makeRequest_one_roundtrip_error_iff ⟨true, true, true, true, 200, true⟩).2.2.mpr
    ⟨rfl, rfl, rfl, rfl, ⟨by decide, by decide⟩, rfl⟩

/-- C10: the `Sending request ...` log line depends only on the URL and the
byte length of the serialized body, never on the body's content — two bodies
of equal length (e.g. one containing the API key and one not) produce the
identical log line, so the key cannot leak through it. -/
theorem sendLogLine_noninterference (u b₁ b₂ : String) (h : b₁.length = b₂.length) :
    sendLogLine u b₁ = sendLogLine u b₂ := by
  unfold sendLogLine
  rw [h]

/-- Witness for C10: a body holding a secret key and an equal-length masked
body log identically. -/
theorem sendLogLine_noninterference_witness :
    ("clientKey=sk-SECRET" : String).length = ("clientKey=xxxxxxxxx" : String).length ∧
    sendLogLine "https://api.anti-captcha.com/createTask" "clientKey=sk-SECRET" =
      sendLogLine "https://api.anti-captcha.com/createTask" "clientKey=xxxxxxxxx" :=
  ⟨rfl, sendLogLine_noninterference _ _ _ rfl⟩

/-- C3: on a create response with a non-zero numeric `errorId` and a string
`errorDescription`, `createTaskImage` yields no task identifier but a bare
`errors.New(errorDescription)` error whose rendered message is the
description verbatim, and `SolveAndReturnSolution` likewise returns that
bare error (with no polls, an unchanged config, and no solution). -/
theorem create_errorId_verbatim (c : Call) (r : JObj) (n : Int) (d : String)
    (hr : c.resp = some r) (hdur : c.dur < defaultTimeout)
    (he : jlookup r "errorId" = some (.jnum n)) (hn : n ≠ 0)
    (hd : asStr (jlookup r "errorDescription") = some d) :
    createTaskImage defaultTimeout 0 c = (c.dur, .fail (.msg d)) ∧
    (GoErr.msg d).message = d ∧
    ∀ h env fuel, SolveAndReturnSolution h c env fuel =
      (h, { time := c.dur, polls := 0, sleeps := 0 }, .fail (.msg d)) := by
  have h1 : ¬ (defaultTimeout ≤ (0 : Nat)) := by simp [defaultTimeout]
  have h2 : ¬ (defaultTimeout ≤ 0 + c.dur) := by omega
  have hex : httpExchange defaultTimeout 0 c = (c.dur, .ok r) := by
    simp [httpExchange, h1, h2, hr]
    omega
  have hdec : decodeCreate r = .fail (.msg d) := by
    simp [decodeCreate, he, hn, hd]
  refine ⟨?_, rfl, ?_⟩
  · simp [createTaskImage, hex, hdec]
  · intro h env fuel
    simp [SolveAndReturnSolution, hex, hdec]

/-- Witness for C3 at a concrete create response. -/
theorem create_errorId_verbatim_witness :
    createTaskImage defaultTimeout 0
        ⟨0, some [("errorId", .jnum 2),
                  ("errorDescription", .jstr "ERROR_KEY_DOES_NOT_EXIST")]⟩ =
      (0, .fail (.msg "ERROR_KEY_DOES_NOT_EXIST")) :=
  (create_errorId_verbatim ⟨0, some [("errorId", .jnum 2),
      ("errorDescription", .jstr "ERROR_KEY_DOES_NOT_EXIST")]⟩
    [("errorId", .jnum 2), ("errorDescription", .jstr "ERROR_KEY_DOES_NOT_EXIST")]
    2 "ERROR_KEY_DOES_NOT_EXIST" rfl (by decide) rfl (by decide) rfl).1

/-- C4: on a create response whose `errorId` is absent or zero and whose
`taskId` is absent or not numeric, both workflows return the
`failed to retrieve taskId from response` format error with `polls = 0`:
the result-check endpoint is never contacted. -/
theorem create_taskId_format_error (c : Call) (r : JObj)
    (hr : c.resp = some r) (hdur : c.dur < defaultTimeout)
    (he : jlookup r "errorId" = none ∨ jlookup r "errorId" = some (.jnum 0))
    (hid : asNum (jlookup r "taskId") = none) :
    (∀ env fuel, SendImage c env fuel =
      ({ time := c.dur, polls := 0, sleeps := 0 },
        .fail (.wrap "failed to send image"
          (.msg "failed to retrieve taskId from response")))) ∧
    (∀ h env fuel, SolveAndReturnSolution h c env fuel =
      (h, { time := c.dur, polls := 0, sleeps := 0 },
        .fail (.msg "failed to retrieve taskId from response"))) := by
  have h1 : ¬ (defaultTimeout ≤ (0 : Nat)) := by simp [defaultTimeout]
  have h2 : ¬ (defaultTimeout ≤ 0 + c.dur) := by omega
  have hex : httpExchange defaultTimeout 0 c = (c.dur, .ok r) := by
    simp [httpExchange, h1, h2, hr]
    omega
  have hdec : decodeCreate r = .fail (.msg "failed to retrieve taskId from response") := by
    rcases he with he | he <;> simp [decodeCreate, he, extractTaskId, hid]
  constructor
  · intro env fuel
    simp [SendImage, createTaskImage, hex, hdec]
  · intro h env fuel
    simp [SolveAndReturnSolution, hex, hdec]

/-- Witness for C4 at a concrete create response with a string `taskId`. -/
theorem create_taskId_format_error_witness :
    SendImage ⟨0, some [("errorId", .jnum 0), ("taskId", .jstr "oops")]⟩ envProcessing 31 =
      ({ time := 0, polls := 0, sleeps := 0 },
        .fail (.wrap "failed to send image"
          (.msg "failed to retrieve taskId from response"))) :=
  (create_taskId_format_error ⟨0, some [("errorId", .jnum 0), ("taskId", .jstr "oops")]⟩
    [("errorId", .jnum 0), ("taskId", .jstr "oops")]
    rfl (by decide) (Or.inr rfl) rfl).1 envProcessing 31

/-- The comma-ok `taskId` extraction never panics. -/
lemma extractTaskId_ne_panicked (r : JObj) (s : String) : extractTaskId r ≠ .panicked s := by
  unfold extractTaskId
  split <;> simp

/-- The image ready-branch decoder never panics (all assertions are
comma-ok). -/
lemma decodeImageReady_ne_panicked (r : JObj) (s : String) :
    decodeImageReady r ≠ .panicked s := by
  unfold decodeImageReady
  split
  · simp
  · split <;> simp

/-- A successful exchange returns exactly the environment's response. -/
lemma httpExchange_ok_resp {D t : Nat} {c : Call} {t' : Nat} {r : JObj}
    (h : httpExchange D t c = (t', Except.ok r)) : c.resp = some r := by
  unfold httpExchange at h
  split at h
  · simp at h
  · split at h
    · simp at h
    · split at h
      · simp at h
      · next heq => simp_all

/-- A successful `getTaskResult` returns exactly the environment's
response. -/
lemma getTaskResult_ok_resp {D t : Nat} {c : Call} {t' : Nat} {r : JObj}
    (h : getTaskResult D t c = (t', Except.ok r)) : c.resp = some r := by
  unfold getTaskResult at h
  split at h
  · simp at h
  · next heq =>
    simp at h
    exact httpExchange_ok_resp (h.1 ▸ h.2 ▸ heq)

/-- Counterexample to C2: the code does panic on shape deviations.  A create
response whose `errorId` is a string makes `createTaskImage` hit the
unchecked assertion `errMsg.(float64)`, and a ready HCaptcha response whose
solution lacks `userAgent` makes `SolveAndReturnSolution` hit the unchecked
assertion `solution["userAgent"].(string)`: both are runtime panics, not
returned errors. -/
theorem shape_deviation_panics :
    createTaskImage defaultTimeout 0 ⟨0, some [("errorId", .jstr "boom")]⟩ =
      (0, .panicked "interface conversion") ∧
    SolveAndReturnSolution hc0 ccTask1 envNoUserAgent 1 =
      (hc0, { time := 0, polls := 1, sleeps := 0 }, .panicked "interface conversion") :=
  ⟨rfl, rfl⟩

/-- C2 amended: the comma-ok-checked deviations (`taskId`, `status`,
`solution`, `text`) are surfaced as returned errors and the image polling
loop never panics; but the create decoder panics exactly when `errorId` is
present and non-numeric, or is a non-zero number with `errorDescription`
absent or non-string, and the HCaptcha ready-decoder panics exactly when a
well-formed solution with a string `gRecaptchaResponse` lacks a string
`userAgent` or `respKey`. -/
theorem decode_panic_characterization :
    (∀ r, (∃ s, decodeCreate r = .panicked s) ↔ badCreateShape r) ∧
    (∀ h r, (∃ s, (decodeHReady h r).2 = .panicked s) ↔ badHSolutionShape r) ∧
    (∀ env fuel st s,
      (pollLoop defaultTimeout env imageDecoder fuel st ()).2.2 ≠ RunRes.panicked s) := by
  refine ⟨?_, ?_, ?_⟩
  · intro r
    constructor
    · rintro ⟨s, hs⟩
      unfold decodeCreate at hs
      rcases he : jlookup r "errorId" with _ | v
      · rw [he] at hs
        exact absurd hs (extractTaskId_ne_panicked r s)
      · rw [he] at hs
        cases v with
        | jnum n =>
          by_cases hn : n = 0
          · simp [hn] at hs
            exact absurd hs (extractTaskId_ne_panicked r s)
          · simp [hn] at hs
            rcases hd : asStr (jlookup r "errorDescription") with _ | d
            · exact Or.inr ⟨n, he, hn, hd⟩
            · rw [hd] at hs
              simp at hs
        | jstr v => exact Or.inl ⟨.jstr v, he, rfl⟩
        | jbool v => exact Or.inl ⟨.jbool v, he, rfl⟩
        | jnull => exact Or.inl ⟨.jnull, he, rfl⟩
        | jobj v => exact Or.inl ⟨.jobj v, he, rfl⟩
    · rintro (⟨v, hv, hnum⟩ | ⟨n, hn, hne, hd⟩)
      · refine ⟨"interface conversion", ?_⟩
        unfold decodeCreate
        rw [hv]
        cases v <;> simp_all [asNum]
      · refine ⟨"interface conversion", ?_⟩
        unfold decodeCreate
        rw [hn]
        simp [hne, hd]
  · intro h r
    constructor
    · rintro ⟨s, hs⟩
      unfold decodeHReady at hs
      rcases hsol : asObj (jlookup r "solution") with _ | sol <;>
        simp only [hsol] at hs
      · simp at hs
      · rcases hg : asStr (jlookup sol "gRecaptchaResponse") with _ | g <;>
          simp only [hg] at hs
        · simp at hs
        · rcases hua : asStr (jlookup sol "userAgent") with _ | ua <;>
            simp only [hua] at hs
          · exact ⟨sol, hsol, ⟨g, hg⟩, Or.inl hua⟩
          · rcases hrk : asStr (jlookup sol "respKey") with _ | rk <;>
              simp only [hrk] at hs
            · exact ⟨sol, hsol, ⟨g, hg⟩, Or.inr hrk⟩
            · simp at hs
    · rintro ⟨sol, hsol, ⟨g, hg⟩, hbad | hbad⟩
      · exact ⟨"interface conversion", by simp [decodeHReady, hsol, hg, hbad]⟩
      · refine ⟨"interface conversion", ?_⟩
        rcases hua : asStr (jlookup sol "userAgent") with _ | ua <;>
          simp [decodeHReady, hsol, hg, hbad, hua]
  · intro env fuel
    induction fuel with
    | zero => intro st s; simp [pollLoop]
    | succ f ih =>
      intro st s
      rcases hgt : getTaskResult defaultTimeout st.time (env st.polls) with ⟨t', ex⟩
      cases ex with
      | error e => simp [pollLoop, hgt]
      | ok r =>
        by_cases hrdy : asStr (jlookup r "status") = some "ready"
        · simp [pollLoop, hgt, hrdy, imageDecoder]
          exact decodeImageReady_ne_panicked r s
        · simp [pollLoop, hgt, hrdy]
          exact ih _ s

/-- Witness for C2's amended theorem: a concrete non-numeric `errorId`
panics, and a concrete image poll run does not. -/
theorem decode_panic_characterization_witness :
    (∃ s, decodeCreate [("errorId", .jnum 1)] = .panicked s) ∧
    (pollLoop defaultTimeout envProcessing imageDecoder 1
        { time := 0, polls := 0, sleeps := 0 } ()).2.2 ≠ RunRes.panicked "boom" :=
  ⟨(decode_panic_characterization.1 _).mpr
      (Or.inr ⟨1, rfl, by decide, rfl⟩),
    decode_panic_characterization.2.2 envProcessing 1 _ "boom"⟩

/-- Counterexample to C5: the inter-poll `time.Sleep` is NOT interrupted by
the deadline.  With a create call taking 1s and instantaneous polls that
always answer `processing`, the final sleep runs from 59s to 61s; the
60-second deadline expires during that sleep, yet the operation only returns
at 61s — at the next HTTP call — not immediately at 60s. -/
theorem sleep_not_interrupted :
    SendImage ⟨1, some [("taskId", .jnum 7)]⟩ envProcessing 31 =
      ({ time := 61, polls := 31, sleeps := 30 }, .fail pollDeadlineErr) ∧
    defaultTimeout <
      (SendImage ⟨1, some [("taskId", .jnum 7)]⟩ envProcessing 31).1.time := by
  constructor
  · rfl
  · decide

/-- Main deadline lemma for the polling loop: if the service always answers
and never says `ready`, a loop started strictly before `D + checkInterval`
with enough fuel ends with the doubly-wrapped context-deadline error, at a
time in `[defaultTimeout, defaultTimeout + checkInterval)`, leaving the
threaded state untouched. -/
lemma pollLoop_deadline {α : Type} (env : Nat → Call) (dec : α → JObj → α × RunRes)
    (henv : neverReady env) :
    ∀ (fuel : Nat) (st : RunStats) (a : α),
      st.time < defaultTimeout + checkInterval →
      defaultTimeout ≤ st.time + checkInterval * fuel →
      ∃ st', pollLoop defaultTimeout env dec (fuel + 1) st a = (st', a, .fail pollDeadlineErr) ∧
        defaultTimeout ≤ st'.time ∧ st'.time < defaultTimeout + checkInterval := by
  intro fuel
  induction fuel with
  | zero =>
    intro st a hlt hge
    simp only [Nat.mul_zero, Nat.add_zero] at hge
    refine ⟨{ time := st.time, polls := st.polls + 1, sleeps := st.sleeps }, ?_, hge, hlt⟩
    simp [pollLoop, getTaskResult, httpExchange, hge, pollDeadlineErr]
  | succ f ih =>
    intro st a hlt hge
    by_cases h60 : defaultTimeout ≤ st.time
    · refine ⟨{ time := st.time, polls := st.polls + 1, sleeps := st.sleeps }, ?_, h60, hlt⟩
      simp [pollLoop, getTaskResult, httpExchange, h60, pollDeadlineErr]
    · obtain ⟨r, hresp, hnr⟩ := henv st.polls
      by_cases hcross : defaultTimeout ≤ st.time + (env st.polls).dur
      · refine ⟨{ time := defaultTimeout, polls := st.polls + 1, sleeps := st.sleeps },
          ?_, Nat.le_refl _, by simp [checkInterval]⟩
        simp [pollLoop, getTaskResult, httpExchange, h60, hcross, pollDeadlineErr]
      · have hstep :
            pollLoop defaultTimeout env dec (f + 1 + 1) st a =
              pollLoop defaultTimeout env dec (f + 1)
                { time := st.time + (env st.polls).dur + checkInterval,
                  polls := st.polls + 1, sleeps := st.sleeps + 1 } a := by
          simp [pollLoop, getTaskResult, httpExchange, h60, hcross, hresp, hnr]
        have hlt' : st.time + (env st.polls).dur + checkInterval <
            defaultTimeout + checkInterval := by omega
        have hge' : defaultTimeout ≤
            st.time + (env st.polls).dur + checkInterval + checkInterval * f := by
          have := hge
          simp [Nat.mul_succ] at this ⊢
          omega
        obtain ⟨st', heq, hub, hlb⟩ := ih
          { time := st.time + (env st.polls).dur + checkInterval,
            polls := st.polls + 1, sleeps := st.sleeps + 1 } a hlt' hge'
        exact ⟨st', hstep ▸ heq, hub, hlb⟩

/-- Deadline behaviour of both full workflows against a responsive service
that never reaches `ready`: with fuel 31 each terminates (the result is a
returned error, not fuel exhaustion), that error is a cancellation
(`errors.Is(err, context.DeadlineExceeded)`), and the return time lies in
`[defaultTimeout, defaultTimeout + checkInterval)`. -/
lemma solve_deadline_master (cc : Call) (env : Nat → Call) (r : JObj) (n : Int)
    (hcc : cc.resp = some r) (hdec : decodeCreate r = .ok n) (henv : neverReady env) :
    (∃ st e, SendImage cc env 31 = (st, .fail e) ∧ e.isCancellation = true ∧
      defaultTimeout ≤ st.time ∧ st.time < defaultTimeout + checkInterval) ∧
    (∀ h, ∃ h' st e, SolveAndReturnSolution h cc env 31 = (h', st, .fail e) ∧
      e.isCancellation = true ∧
      defaultTimeout ≤ st.time ∧ st.time < defaultTimeout + checkInterval) := by
  have hdt : defaultTimeout = 60 := rfl
  have hci : checkInterval = 2 := rfl
  by_cases hcross : defaultTimeout ≤ cc.dur
  · have h1 : ¬ (defaultTimeout ≤ (0 : Nat)) := by omega
    have h2 : defaultTimeout ≤ 0 + cc.dur := by omega
    have hex : httpExchange defaultTimeout 0 cc =
        (defaultTimeout, .error (.wrap "request failed" .ctxDeadline)) := by
      simp [httpExchange, h1, hcross]
    constructor
    · refine ⟨{ time := defaultTimeout, polls := 0, sleeps := 0 },
        .wrap "failed to send image" (.wrap "failed to create task"
          (.wrap "request failed" .ctxDeadline)), ?_, rfl, Nat.le_refl _, ?_⟩
      · simp [SendImage, createTaskImage, hex]
      · show defaultTimeout < defaultTimeout + checkInterval
        omega
    · intro h
      refine ⟨h, { time := defaultTimeout, polls := 0, sleeps := 0 },
        .wrap "failed to create task" (.wrap "request failed" .ctxDeadline),
        ?_, rfl, Nat.le_refl _, ?_⟩
      · simp [SolveAndReturnSolution, hex]
      · show defaultTimeout < defaultTimeout + checkInterval
        omega
  · have h1 : ¬ (defaultTimeout ≤ (0 : Nat)) := by omega
    have h2 : ¬ (defaultTimeout ≤ 0 + cc.dur) := by omega
    have hex : httpExchange defaultTimeout 0 cc = (cc.dur, .ok r) := by
      simp [httpExchange, h1, h2, hcc]
      omega
    have hlt : ({ time := cc.dur, polls := 0, sleeps := 0 } : RunStats).time <
        defaultTimeout + checkInterval := by
      show cc.dur < defaultTimeout + checkInterval
      omega
    have hge : defaultTimeout ≤
        ({ time := cc.dur, polls := 0, sleeps := 0 } : RunStats).time +
          checkInterval * 30 := by
      show defaultTimeout ≤ cc.dur + checkInterval * 30
      omega
    constructor
    · obtain ⟨st', heq, hub, hlb⟩ :=
        pollLoop_deadline env imageDecoder henv 30
          { time := cc.dur, polls := 0, sleeps := 0 } () hlt hge
      refine ⟨st', pollDeadlineErr, ?_, rfl, hub, hlb⟩
      simp [SendImage, createTaskImage, hex, hdec, heq]
    · intro h
      obtain ⟨st', heq, hub, hlb⟩ :=
        pollLoop_deadline env decodeHReady henv 30
          { time := cc.dur, polls := 0, sleeps := 0 } h hlt hge
      refine ⟨h, st', pollDeadlineErr, ?_, rfl, hub, hlb⟩
      simp [SolveAndReturnSolution, hex, hdec, heq]

/-- C5 amended: the timeout scope is honoured at the HTTP calls only; the
inter-poll `time.Sleep` always runs to completion, so an expiry that occurs
during a sleep is observed at the next HTTP call rather than interrupting
the sleep — delaying the return past the deadline by strictly less than
the 2-second `checkInterval`. -/
theorem deadline_observed_within_one_interval (cc : Call) (env : Nat → Call) (r : JObj)
    (n : Int) (hcc : cc.resp = some r) (hdec : decodeCreate r = .ok n)
    (henv : neverReady env) :
    (∃ st e, SendImage cc env 31 = (st, .fail e) ∧ e.isCancellation = true ∧
      st.time < defaultTimeout + checkInterval) ∧
    (∀ h, ∃ h' st e, SolveAndReturnSolution h cc env 31 = (h', st, .fail e) ∧
      e.isCancellation = true ∧ st.time < defaultTimeout + checkInterval) := by
  obtain ⟨⟨st, e, heq, hca, _, hub⟩, hsol⟩ := solve_deadline_master cc env r n hcc hdec henv
  refine ⟨⟨st, e, heq, hca, hub⟩, ?_⟩
  intro h
  obtain ⟨h', st', e', heq', hca', _, hub'⟩ := hsol h
  exact ⟨h', st', e', heq', hca', hub'⟩

/-- Witness for C5's amended theorem at an always-`processing` service. -/
theorem deadline_observed_within_one_interval_witness :
    ∃ st e, SendImage ccTask1 envProcessing 31 = (st, .fail e) ∧
      e.isCancellation = true ∧ st.time < defaultTimeout + checkInterval :=
  (deadline_observed_within_one_interval ccTask1 envProcessing
    [("taskId", .jnum 1)] 1 rfl rfl
    (fun _ => ⟨[("status", .jstr "processing")], rfl, by decide⟩)).1

/-- C6: against a responsive service that never answers `ready`, both
workflows terminate — with fuel 31 the model returns an error, never
`fuelOut` — and the error is a cancellation (`errors.Is` on
`context.DeadlineExceeded` holds) returned at or after the 60-second
deadline. -/
theorem never_ready_terminates_with_cancellation (cc : Call) (env : Nat → Call)
    (r : JObj) (n : Int) (hcc : cc.resp = some r) (hdec : decodeCreate r = .ok n)
    (henv : neverReady env) :
    (∃ st e, SendImage cc env 31 = (st, .fail e) ∧ e.isCancellation = true ∧
      defaultTimeout ≤ st.time) ∧
    (∀ h, ∃ h' st e, SolveAndReturnSolution h cc env 31 = (h', st, .fail e) ∧
      e.isCancellation = true ∧ defaultTimeout ≤ st.time) := by
  obtain ⟨⟨st, e, heq, hca, hlb, _⟩, hsol⟩ := solve_deadline_master cc env r n hcc hdec henv
  refine ⟨⟨st, e, heq, hca, hlb⟩, ?_⟩
  intro h
  obtain ⟨h', st', e', heq', hca', hlb', _⟩ := hsol h
  exact ⟨h', st', e', heq', hca', hlb'⟩

/-- Witness for C6 at an always-`processing` service. -/
theorem never_ready_terminates_with_cancellation_witness :
    ∃ h' st e, SolveAndReturnSolution hc0 ccTask1 envProcessing 31 = (h', st, .fail e) ∧
      e.isCancellation = true ∧ defaultTimeout ≤ st.time :=
  (never_ready_terminates_with_cancellation ccTask1 envProcessing
    [("taskId", .jnum 1)] 1 rfl rfl
    (fun _ => ⟨[("status", .jstr "processing")], rfl, by decide⟩)).2 hc0

/-- If the `i`-th poll exchange carries a `ready` status, the loop makes at
most `i + 1` poll attempts when started at attempt number at most `i`. -/
lemma pollLoop_stops_at_ready {α : Type} (D : Nat) (env : Nat → Call)
    (dec : α → JObj → α × RunRes) (i : Nat) (r : JObj)
    (hresp : (env i).resp = some r)
    (hready : asStr (jlookup r "status") = some "ready") :
    ∀ (fuel : Nat) (st : RunStats) (a : α), st.polls ≤ i →
      ((pollLoop D env dec fuel st a).1).polls ≤ i + 1 := by
  intro fuel
  induction fuel with
  | zero =>
    intro st a hp
    simp only [pollLoop]
    omega
  | succ f ih =>
    intro st a hp
    rcases hgt : getTaskResult D st.time (env st.polls) with ⟨t', ex⟩
    cases ex with
    | error e =>
      simp [pollLoop, hgt]
      omega
    | ok r' =>
      by_cases hrdy : asStr (jlookup r' "status") = some "ready"
      · rcases hd : dec a r' with ⟨a2, res2⟩
        simp [pollLoop, hgt, hrdy, hd]
        omega
      · have hne : st.polls ≠ i := by
          intro hpi
          have h1 : (env i).resp = some r' := by
            rw [← hpi]
            exact getTaskResult_ok_resp hgt
          rw [hresp] at h1
          injection h1 with h2
          exact hrdy (h2 ▸ hready)
        simp only [pollLoop, hgt]
        rw [if_neg hrdy]
        exact ih _ a (by simp only []; omega)

/-- C7: once some poll exchange would answer `ready`, neither workflow ever
contacts the result-check endpoint a further time: if the `i`-th poll
response (0-indexed) has status `ready`, the total number of poll attempts
of the whole run is at most `i + 1`, for any fuel. -/
theorem no_poll_past_readiness (cc : Call) (env : Nat → Call) (i : Nat) (r : JObj)
    (hresp : (env i).resp = some r)
    (hready : asStr (jlookup r "status") = some "ready") :
    (∀ fuel, ((SendImage cc env fuel).1).polls ≤ i + 1) ∧
    (∀ h fuel, ((SolveAndReturnSolution h cc env fuel).2.1).polls ≤ i + 1) := by
  constructor
  · intro fuel
    rcases hct : createTaskImage defaultTimeout 0 cc with ⟨t, g⟩
    cases g with
    | fail e => simp [SendImage, hct]
    | panicked s => simp [SendImage, hct]
    | ok m =>
      rcases hpl : pollLoop defaultTimeout env imageDecoder fuel
          { time := t, polls := 0, sleeps := 0 } () with ⟨st', a', res'⟩
      have hb := pollLoop_stops_at_ready defaultTimeout env imageDecoder i r hresp hready
        fuel { time := t, polls := 0, sleeps := 0 } () (Nat.zero_le i)
      rw [hpl] at hb
      simp [SendImage, hct, hpl]
      simpa using hb
  · intro h fuel
    rcases hex : httpExchange defaultTimeout 0 cc with ⟨t, ex⟩
    cases ex with
    | error e => simp [SolveAndReturnSolution, hex]
    | ok rc =>
      rcases hdc : decodeCreate rc with m | e | s
      · rcases hpl : pollLoop defaultTimeout env decodeHReady fuel
            { time := t, polls := 0, sleeps := 0 } h with ⟨st', h', res'⟩
        have hb := pollLoop_stops_at_ready defaultTimeout env decodeHReady i r hresp hready
          fuel { time := t, polls := 0, sleeps := 0 } h (Nat.zero_le i)
        rw [hpl] at hb
        simp [SolveAndReturnSolution, hex, hdc, hpl]
        simpa using hb
      · simp [SolveAndReturnSolution, hex, hdc]
      · simp [SolveAndReturnSolution, hex, hdc]

/-- Witness for C7: in the two-poll scenario the second (index 1) poll is
ready, and indeed at most two polls happen. -/
theorem no_poll_past_readiness_witness :
    ((SendImage ⟨0, some [("taskId", .jnum 7)]⟩ envC1 31).1).polls ≤ 2 :=
  (no_poll_past_readiness ⟨0, some [("taskId", .jnum 7)]⟩ envC1 1
    [("status", .jstr "ready"), ("solution", .jobj [("text", .jstr "AB12")])]
    rfl rfl).1 31

/-- Frame of the HCaptcha ready-decoder: a returned error leaves the config
untouched, and success only sets `userAgent` and `respKey`. -/
lemma decodeHReady_frame (h : HCaptchaProxyless) (r : JObj) :
    (∀ e, (decodeHReady h r).2 = .fail e → (decodeHReady h r).1 = h) ∧
    (∀ g, (decodeHReady h r).2 = .ok g →
      ∃ ua rk, (decodeHReady h r).1 = { h with userAgent := ua, respKey := rk }) ∧
    ((decodeHReady h r).2 ≠ RunRes.fuelOut) := by
  rcases hsol : asObj (jlookup r "solution") with _ | sol
  · simp [decodeHReady, hsol]
  · rcases hg : asStr (jlookup sol "gRecaptchaResponse") with _ | g
    · simp [decodeHReady, hsol, hg]
    · rcases hua : asStr (jlookup sol "userAgent") with _ | ua
      · simp [decodeHReady, hsol, hg, hua]
      · rcases hrk : asStr (jlookup sol "respKey") with _ | rk
        · simp [decodeHReady, hsol, hg, hua, hrk]
        · refine ⟨?_, ?_, ?_⟩
          · intro e he
            simp [decodeHReady, hsol, hg, hua, hrk] at he
          · intro g' _
            exact ⟨ua, rk, by simp [decodeHReady, hsol, hg, hua, hrk]⟩
          · simp [decodeHReady, hsol, hg, hua, hrk]

/-- Frame of the HCaptcha polling loop: threaded config unchanged on a
returned error or fuel exhaustion; success only sets `userAgent`/`respKey`. -/
lemma pollLoopH_frame (env : Nat → Call) :
    ∀ (fuel : Nat) (st : RunStats) (h : HCaptchaProxyless) st' h' res,
      pollLoop defaultTimeout env decodeHReady fuel st h = (st', h', res) →
      ((∀ e, res = .fail e → h' = h) ∧
       (∀ g, res = .ok g → ∃ ua rk, h' = { h with userAgent := ua, respKey := rk }) ∧
       (res = RunRes.fuelOut → h' = h)) := by
  intro fuel
  induction fuel with
  | zero =>
    intro st h st' h' res heq
    simp [pollLoop] at heq
    obtain ⟨-, hh, hr⟩ := heq
    subst hh
    subst hr
    simp
  | succ f ih =>
    intro st h st' h' res heq
    rcases hgt : getTaskResult defaultTimeout st.time (env st.polls) with ⟨t', ex⟩
    cases ex with
    | error e0 =>
      simp [pollLoop, hgt] at heq
      obtain ⟨-, hh, hr⟩ := heq
      subst hh
      subst hr
      simp
    | ok r =>
      by_cases hrdy : asStr (jlookup r "status") = some "ready"
      · rcases hd : decodeHReady h r with ⟨h2, res2⟩
        simp [pollLoop, hgt, hrdy, hd] at heq
        obtain ⟨-, hh, hr⟩ := heq
        subst hh
        subst hr
        have hfr := decodeHReady_frame h r
        rw [hd] at hfr
        exact ⟨hfr.1, hfr.2.1, fun hfo => absurd hfo hfr.2.2⟩
      · simp only [pollLoop, hgt] at heq
        rw [if_neg hrdy] at heq
        exact ih _ h st' h' res heq

/-- C8: on the ready HCaptcha response
`{solution:{gRecaptchaResponse:"tok", userAgent:"UA", respKey:"K"}}`,
`SolveAndReturnSolution` returns `"tok"` and the config afterwards carries
`userAgent = "UA"` and `respKey = "K"` with every caller-set field
unchanged; moreover, on any run, a returned error leaves the whole config
unchanged, and success changes nothing except `userAgent` and `respKey`. -/
theorem SolveAndReturnSolution_success_and_frame :
    (∀ h0 : HCaptchaProxyless,
      SolveAndReturnSolution h0 ccTask1 envHCaptcha 1 =
        ({ h0 with userAgent := "UA", respKey := "K" },
          { time := 0, polls := 1, sleeps := 0 }, .ok "tok")) ∧
    (∀ h cc env fuel h' st e,
      SolveAndReturnSolution h cc env fuel = (h', st, .fail e) → h' = h) ∧
    (∀ h cc env fuel h' st g,
      SolveAndReturnSolution h cc env fuel = (h', st, .ok g) →
        ∃ ua rk, h' = { h with userAgent := ua, respKey := rk }) := by
  refine ⟨fun h0 => rfl, ?_, ?_⟩
  · intro h cc env fuel h' st e heq
    rcases hex : httpExchange defaultTimeout 0 cc with ⟨t, ex⟩
    cases ex with
    | error e0 =>
      simp [SolveAndReturnSolution, hex] at heq
      exact heq.1.symm
    | ok rc =>
      rcases hdc : decodeCreate rc with m | e0 | s0
      · rcases hpl : pollLoop defaultTimeout env decodeHReady fuel
            { time := t, polls := 0, sleeps := 0 } h with ⟨st2, h2, res2⟩
        simp [SolveAndReturnSolution, hex, hdc, hpl] at heq
        obtain ⟨hh, -, hr⟩ := heq
        subst hh
        exact (pollLoopH_frame env fuel _ h _ _ _ hpl).1 e hr
      · simp [SolveAndReturnSolution, hex, hdc] at heq
        exact heq.1.symm
      · simp [SolveAndReturnSolution, hex, hdc] at heq
  · intro h cc env fuel h' st g heq
    rcases hex : httpExchange defaultTimeout 0 cc with ⟨t, ex⟩
    cases ex with
    | error e0 => simp [SolveAndReturnSolution, hex] at heq
    | ok rc =>
      rcases hdc : decodeCreate rc with m | e0 | s0
      · rcases hpl : pollLoop defaultTimeout env decodeHReady fuel
            { time := t, polls := 0, sleeps := 0 } h with ⟨st2, h2, res2⟩
        simp [SolveAndReturnSolution, hex, hdc, hpl] at heq
        obtain ⟨hh, -, hr⟩ := heq
        subst hh
        exact (pollLoopH_frame env fuel _ h _ _ _ hpl).2.1 g hr
      · simp [SolveAndReturnSolution, hex, hdc] at heq
      · simp [SolveAndReturnSolution, hex, hdc] at heq

/-- Witness for C8: the concrete scenario run from the concrete config
`hc0`, and the success-frame shape applied to its outcome. -/
theorem SolveAndReturnSolution_success_and_frame_witness :
    SolveAndReturnSolution hc0 ccTask1 envHCaptcha 1 =
      ({ hc0 with userAgent := "UA", respKey := "K" },
        { time := 0, polls := 1, sleeps := 0 }, .ok "tok") ∧
    ∃ ua rk, ({ hc0 with userAgent := "UA", respKey := "K" } : HCaptchaProxyless) =
      { hc0 with userAgent := ua, respKey := rk } :=
  ⟨SolveAndReturnSolution_success_and_frame.1 hc0,
    SolveAndReturnSolution_success_and_frame.2.2 hc0 ccTask1 envHCaptcha 1 _ _ "tok"
      (SolveAndReturnSolution_success_and_frame.1 hc0)⟩

end Anticaptcha
